import Mathlib

/-!
Verification of the redirect-chain capture and scoring engine of the
RedirectWise browser extension.  The definitions below are a shallow
embedding of the TypeScript source: `src/types/redirect.ts` (status
classifier and chain scorer) and the background script in
`src/entrypoints/sidepanel/Sidepanel.tsx` (per-tab chain assembler,
timing tracker, and event listeners).  JS numbers are modelled as `Int`,
JS `Map`s as functions into `Option`, and event-handler side effects as
state-transforming functions; `Date.now()` is passed in as an explicit
`now` argument of each event.
-/

namespace RedirectWise

/-- Models JS `String.prototype.startsWith`: character-list prefix test. -/
def jsStartsWith (s pre : String) : Bool :=
  pre.data.isPrefixOf s.data

/-- Models JS `String.prototype.toLowerCase` (ASCII case folding suffices for
the header names compared in the source). -/
def jsToLower (s : String) : String :=
  ⟨s.data.map Char.toLower⟩

/-- Models JS `url.split('?')[0]`: the portion of the string before the first
`'?'` (the whole string when no `'?'` occurs). -/
def splitBeforeQuery (s : String) : String :=
  ⟨s.data.takeWhile (fun c => c ≠ '?')⟩

/-- Models JS `a || b` on a possibly-undefined number: `undefined` and the
falsy number `0` both fall through to `b`. -/
def jsOrInt (a : Option Int) (b : Int) : Int :=
  match a with
  | some t => if t = 0 then b else t
  | none => b

/-- Models JS `a || b` on a possibly-undefined string: `undefined` and the
falsy empty string both fall through to `b`. -/
def jsOrStr (a : Option String) (b : String) : String :=
  match a with
  | some x => if x = "" then b else x
  | none => b

/-- `RedirectItem.type` in `src/types/redirect.ts`. -/
inductive HopType where
  | navigation
  | server_redirect
  | client_redirect
  deriving DecidableEq

/-- `RedirectType` in `src/types/redirect.ts`. -/
inductive RedirectType where
  | permanent
  | temporary
  | meta
  | javascript
  | hsts
  deriving DecidableEq

/-- `RedirectHeader` in `src/types/redirect.ts`. -/
structure RedirectHeader where
  name : String
  value : String
  deriving DecidableEq

/-- `RedirectTiming` in `src/types/redirect.ts`. -/
structure RedirectTiming where
  startTime : Int
  endTime : Int
  duration : Int
  deriving DecidableEq

/-- The `statusObject` field type of `RedirectItem`. -/
structure StatusObject where
  isSuccess : Bool
  isRedirect : Bool
  isClientError : Bool
  isServerError : Bool
  classes : List String
  deriving DecidableEq

/-- `RedirectItem` in `src/types/redirect.ts`.  `generateId()` returns a
random string; it is modelled as a `Nat` drawn from a per-state counter,
which preserves exactly the property the source relies on (freshness). -/
structure RedirectItem where
  id : Nat
  url : String
  status_code : Int
  status_line : String
  ip : String
  type : HopType
  redirect_type : Option RedirectType
  redirect_url : Option String
  headers : List RedirectHeader
  timestamp : Int
  timing : Option RedirectTiming
  statusObject : StatusObject
  deriving DecidableEq

/-- `ChainIssue.type` in `src/types/redirect.ts`. -/
inductive IssueType where
  | warning
  | error
  | info
  deriving DecidableEq

/-- `ChainIssue.impact` in `src/types/redirect.ts`. -/
inductive Impact where
  | high
  | medium
  | low
  deriving DecidableEq

/-- `ChainIssue` in `src/types/redirect.ts`. -/
structure ChainIssue where
  type : IssueType
  message : String
  impact : Impact
  deriving DecidableEq

/-- `ChainScore.grade` in `src/types/redirect.ts`. -/
inductive Grade where
  | A
  | B
  | C
  | D
  | F
  deriving DecidableEq

/-- `ChainScore` in `src/types/redirect.ts`. -/
structure ChainScore where
  score : Int
  grade : Grade
  issues : List ChainIssue
  recommendations : List String
  deriving DecidableEq

/-- `getStatusObject` in `src/types/redirect.ts`. -/
def getStatusObject (statusCode : Int) : StatusObject :=
  let isSuccess := decide (200 ≤ statusCode ∧ statusCode < 300)
  let isRedirect := decide (300 ≤ statusCode ∧ statusCode < 400)
  let isClientError := decide (400 ≤ statusCode ∧ statusCode < 500)
  let isServerError := decide (500 ≤ statusCode)
  let classes :=
    (if isSuccess then ["status-success"] else []) ++
    (if isRedirect then ["status-redirect"] else []) ++
    (if isClientError then ["status-client-error"] else []) ++
    (if isServerError then ["status-server-error"] else [])
  { isSuccess := isSuccess, isRedirect := isRedirect,
    isClientError := isClientError, isServerError := isServerError,
    classes := classes }

/-- Predicate of the `redirectCount` filter in `calculateChainScore`. -/
def isRedirectHop (p : RedirectItem) : Bool :=
  decide (p.type = HopType.server_redirect ∨ p.type = HopType.client_redirect)

/-- `calculateChainScore` in `src/types/redirect.ts`.  The mutable
`issues` / `recommendations` / `score` accumulators of the source are
threaded sequentially; pushes happen in exactly the source's order. -/
def calculateChainScore (path : List RedirectItem) : ChainScore :=
  let redirectCount : Nat := (path.filter isRedirectHop).length
  let score0 : Int := 100
  let score1 : Int :=
    if redirectCount > 0 then score0 - (redirectCount : Int) * 10 else score0
  let issues1 : List ChainIssue := []
  let recs1 : List String := []
  let issues2 : List ChainIssue :=
    if redirectCount > 3 then
      issues1 ++ [⟨IssueType.error,
        "Too many redirects (" ++ toString redirectCount ++
          "). Each redirect loses ~15% link equity.", Impact.high⟩]
    else if redirectCount > 1 then
      issues1 ++ [⟨IssueType.warning,
        toString redirectCount ++ " redirects in chain. Consider reducing.",
        Impact.medium⟩]
    else issues1
  let recs2 : List String :=
    if redirectCount > 3 then recs1 ++ ["Reduce redirect chain to maximum 2 hops"]
    else recs1
  let score2 : Int := if redirectCount > 3 then score1 - 15 else score1
  let tempRedirects : Nat :=
    (path.filter (fun p => decide (p.status_code = 302 ∨ p.status_code = 307))).length
  let issues3 : List ChainIssue :=
    if tempRedirects > 0 then
      issues2 ++ [⟨IssueType.warning,
        toString tempRedirects ++
          " temporary redirect(s) found. Consider using 301 for permanent moves.",
        Impact.medium⟩]
    else issues2
  let recs3 : List String :=
    if tempRedirects > 0 then
      recs2 ++ ["Change 302 redirects to 301 if the move is permanent"]
    else recs2
  let score3 : Int := if tempRedirects > 0 then score2 - (tempRedirects : Int) * 5 else score2
  let clientRedirects : Nat :=
    (path.filter (fun p => decide (p.type = HopType.client_redirect))).length
  let issues4 : List ChainIssue :=
    if clientRedirects > 0 then
      issues3 ++ [⟨IssueType.error,
        toString clientRedirects ++
          " client-side redirect(s) detected. These are bad for SEO.",
        Impact.high⟩]
    else issues3
  let recs4 : List String :=
    if clientRedirects > 0 then
      recs3 ++ ["Replace JavaScript/meta redirects with server-side 301 redirects"]
    else recs3
  let score4 : Int :=
    if clientRedirects > 0 then score3 - (clientRedirects : Int) * 15 else score3
  let errorHops : Nat := (path.filter (fun p => decide (p.status_code ≥ 400))).length
  let issues5 : List ChainIssue :=
    if errorHops > 0 then
      issues4 ++ [⟨IssueType.error,
        toString errorHops ++ " error response(s) in chain.", Impact.high⟩]
    else issues4
  let score5 : Int := if errorHops > 0 then score4 - (errorHops : Int) * 20 else score4
  let hasHttp : Bool := path.any (fun p => jsStartsWith p.url "http://")
  let issues6 : List ChainIssue :=
    if hasHttp then
      issues5 ++ [⟨IssueType.warning, "Non-HTTPS URL detected in chain.", Impact.medium⟩]
    else issues5
  let recs6 : List String := if hasHttp then recs4 ++ ["Ensure all URLs use HTTPS"] else recs4
  let score6 : Int := if hasHttp then score5 - 10 else score5
  let issues7 : List ChainIssue :=
    if redirectCount = 0 ∧ issues6.length = 0 then
      issues6 ++ [⟨IssueType.info, "Perfect! Direct access with no redirects.", Impact.low⟩]
    else if redirectCount = 1 then
      match path.find? isRedirectHop with
      | some redirectItem =>
        if redirectItem.status_code = 301 ∨ redirectItem.status_code = 308 then
          issues6 ++ [⟨IssueType.info, "Good! Single permanent redirect.", Impact.low⟩]
        else issues6
      | none => issues6
    else issues6
  let clamped : Int := max 0 (min 100 score6)
  let grade : Grade :=
    if clamped ≥ 90 then Grade.A
    else if clamped ≥ 75 then Grade.B
    else if clamped ≥ 60 then Grade.C
    else if clamped ≥ 40 then Grade.D
    else Grade.F
  { score := clamped, grade := grade, issues := issues7, recommendations := recs6 }

/-- `getRedirectType` in `src/entrypoints/sidepanel/Sidepanel.tsx`. -/
def getRedirectType (statusCode : Int) (headers : List RedirectHeader) :
    RedirectType :=
  if statusCode = 307 ∧
      (headers.find? (fun h =>
        decide (jsToLower h.name = "non-authoritative-reason" ∧ h.value = "HSTS"))).isSome
  then RedirectType.hsts
  else if statusCode = 301 ∨ statusCode = 308 then RedirectType.permanent
  else RedirectType.temporary

/-- `getLocationHeader` in `src/entrypoints/sidepanel/Sidepanel.tsx`. -/
def getLocationHeader (headers : List RedirectHeader) : Option String :=
  (headers.find? (fun h => decide (jsToLower h.name = "location"))).map
    RedirectHeader.value

/-- `TabRedirectPath` in `src/types/redirect.ts`. -/
structure TabRedirectPath where
  tabId : Nat
  path : List RedirectItem
  startTime : Int
  deriving DecidableEq

/-- The background script's mutable module state: the JS `Map`s `tabPaths`,
`requestTimings`, `requestIPs` and `pendingNavigations`, each modelled as a
function into `Option`.  Timing and IP keys are the template strings
`tabId + "-" + url`; since a decimal tab id contains no dash, that string
is in bijection with the pair `(tabId, url)`, which is used as the key
type.  `nextId` models `generateId()` as a fresh-id counter. -/
structure SysState where
  tabPaths : Nat → Option TabRedirectPath
  requestTimings : Nat × String → Option Int
  requestIPs : Nat × String → Option String
  pendingNavigations : Nat → Option String
  nextId : Nat

/-- Point update of a map modelled as a function into `Option`. -/
def upd {κ α : Type} [DecidableEq κ] (m : κ → Option α) (k : κ) (v : Option α) :
    κ → Option α :=
  fun k' => if k' = k then v else m k'

/-- The state before any event: empty maps (`new Map()` at module load). -/
def initState : SysState :=
  { tabPaths := fun _ => none
    requestTimings := fun _ => none
    requestIPs := fun _ => none
    pendingNavigations := fun _ => none
    nextId := 0 }

/-- The `Partial RedirectItem` argument of `addRedirectItem`: fields its
callers may leave undefined. -/
structure PartialItem where
  url : Option String
  status_code : Option Int
  status_line : Option String
  ip : Option String
  type : Option HopType
  redirect_type : Option RedirectType
  redirect_url : Option String
  headers : Option (List RedirectHeader)
  deriving DecidableEq

/-- The timing/IP map key `tabId + "-" + url` built by `addRedirectItem`:
a JS template literal renders an undefined `item.url` as `"undefined"`. -/
def partialItemKey (tabId : Nat) (item : PartialItem) : Nat × String :=
  (tabId, match item.url with | some u => u | none => "undefined")

/-- In-place IP upgrade used by `onResponseStarted` and `onCompleted`:
`tabPath.path.find(p => p.url === url && p.ip === 'Unknown')` followed by
`item.ip = ip` replaces the first hop matching the predicate. -/
def updateFirstIp (url ip : String) : List RedirectItem → List RedirectItem
  | [] => []
  | h :: t =>
    if h.url = url ∧ h.ip = "Unknown" then { h with ip := ip } :: t
    else h :: updateFirstIp url ip t

/-- The `fullItem` record built inside `addRedirectItem`, named so that
theorems can refer to the appended hop. -/
def builtItem (now : Int) (tabId : Nat) (item : PartialItem) (s : SysState) :
    RedirectItem :=
  let requestKey := partialItemKey tabId item
  let startTime : Int := jsOrInt (s.requestTimings requestKey) now
  let endTime : Int := now
  { id := s.nextId
    url := jsOrStr item.url ""
    status_code := jsOrInt item.status_code 0
    status_line := jsOrStr item.status_line ""
    ip := jsOrStr item.ip "Unknown"
    type := item.type.getD HopType.navigation
    redirect_type := item.redirect_type
    redirect_url := item.redirect_url
    headers := item.headers.getD []
    timestamp := now
    timing := some { startTime := startTime, endTime := endTime,
                     duration := endTime - startTime }
    statusObject := getStatusObject (jsOrInt item.status_code 0) }

/-- `addRedirectItem` in `src/entrypoints/sidepanel/Sidepanel.tsx`.
`getOrCreateTabPath` followed by `tabPath.path.push(fullItem)` is the
map update below; the broadcast has no effect on this state. -/
def addRedirectItem (now : Int) (tabId : Nat) (item : PartialItem)
    (s : SysState) : SysState :=
  let tabPath : TabRedirectPath :=
    match s.tabPaths tabId with
    | some tp => tp
    | none => { tabId := tabId, path := [], startTime := now }
  let requestKey := partialItemKey tabId item
  let fullItem : RedirectItem := builtItem now tabId item s
  { s with
    tabPaths := upd s.tabPaths tabId
      (some { tabPath with path := tabPath.path ++ [fullItem] })
    requestTimings := upd s.requestTimings requestKey none
    nextId := s.nextId + 1 }

/-- `clearTabPath` in `src/entrypoints/sidepanel/Sidepanel.tsx`. -/
def clearTabPath (now : Int) (tabId : Nat) (s : SysState) : SysState :=
  let fresh : TabRedirectPath := { tabId := tabId, path := [], startTime := now }
  { s with tabPaths := upd s.tabPaths tabId (some fresh) }

/-- The `isNewNavigation` test of the `onBeforeNavigate` listener. -/
def isNewNavigation (s : SysState) (tabId : Nat) (url : String) : Bool :=
  match s.tabPaths tabId with
  | none => true
  | some currentPath =>
    match currentPath.path with
    | [] => true
    | first :: _ => ! jsStartsWith url (splitBeforeQuery first.url)

/-- The browser events consumed by the background script.  `isMainFrame`
models `details.type === 'main_frame'` for webRequest events and
`frameId` models `details.frameId` for webNavigation events; `now` is the
value of `Date.now()` while the handler runs. -/
inductive Event where
  | beforeRequest (tabId : Nat) (url : String) (isMainFrame : Bool) (now : Int)
  | responseStarted (tabId : Nat) (url : String) (ip : Option String)
      (isMainFrame : Bool) (now : Int)
  | beforeNavigate (tabId : Nat) (url : String) (frameId : Nat) (now : Int)
  | headersReceived (tabId : Nat) (url : String) (statusCode : Int)
      (statusLine : String) (responseHeaders : List RedirectHeader)
      (ip : Option String) (isMainFrame : Bool) (now : Int)
  | requestCompleted (tabId : Nat) (url : String) (ip : Option String)
      (isMainFrame : Bool) (now : Int)
  | navigationCompleted (tabId : Nat) (url : String) (frameId : Nat) (now : Int)
  | tabActivated (tabId : Nat)
  | tabRemoved (tabId : Nat)
  | msgGetTabPath (tabId : Nat)
  | msgClearTabPath (tabId : Nat) (now : Int)
  | timingSweep (now : Int)

/-- `chrome.webRequest.onBeforeRequest` listener: record a timing start. -/
def onBeforeRequest (tabId : Nat) (url : String) (isMainFrame : Bool)
    (now : Int) (s : SysState) : SysState :=
  if isMainFrame then
    { s with requestTimings := upd s.requestTimings (tabId, url) (some now) }
  else s

/-- `chrome.webRequest.onResponseStarted` listener: record the IP and
upgrade a matching hop whose IP is still `"Unknown"`.  JS `if (details.ip)`
skips an undefined or empty IP. -/
def onResponseStarted (tabId : Nat) (url : String) (ip : Option String)
    (isMainFrame : Bool) (s : SysState) : SysState :=
  if isMainFrame then
    match ip with
    | some ipv =>
      if ipv = "" then s
      else
        let s1 := { s with requestIPs := upd s.requestIPs (tabId, url) (some ipv) }
        match s1.tabPaths tabId with
        | some tabPath =>
          let upgraded : TabRedirectPath :=
            { tabPath with path := updateFirstIp url ipv tabPath.path }
          { s1 with tabPaths := upd s1.tabPaths tabId (some upgraded) }
        | none => s1
    | none => s
  else s

/-- `chrome.webNavigation.onBeforeNavigate` listener: start a fresh chain
when the navigation is classified as new, otherwise leave state alone
(the broadcast is not state). -/
def onBeforeNavigate (tabId : Nat) (url : String) (frameId : Nat) (now : Int)
    (s : SysState) : SysState :=
  if frameId ≠ 0 then s
  else if isNewNavigation s tabId url then
    let s1 := clearTabPath now tabId s
    { s1 with pendingNavigations := upd s1.pendingNavigations tabId (some url) }
  else s

/-- `chrome.webRequest.onHeadersReceived` listener: build and append a hop,
then drop the consumed `requestIPs` entry. -/
def onHeadersReceived (tabId : Nat) (url : String) (statusCode : Int)
    (statusLine : String) (responseHeaders : List RedirectHeader)
    (ip : Option String) (isMainFrame : Bool) (now : Int) (s : SysState) :
    SysState :=
  if isMainFrame then
    let headers := responseHeaders
    let isRedirect := decide (300 ≤ statusCode ∧ statusCode < 400)
    let redirectUrl := if isRedirect then getLocationHeader headers else none
    let ipv := jsOrStr ip (jsOrStr (s.requestIPs (tabId, url)) "Unknown")
    let s1 := addRedirectItem now tabId
      { url := some url
        status_code := some statusCode
        status_line := some statusLine
        ip := some ipv
        type := some (if isRedirect then HopType.server_redirect else HopType.navigation)
        redirect_type :=
          if isRedirect then some (getRedirectType statusCode headers) else none
        redirect_url := redirectUrl
        headers := some headers } s
    { s1 with requestIPs := upd s1.requestIPs (tabId, url) none }
  else s

/-- `chrome.webRequest.onCompleted` listener: late IP upgrade of a hop
whose IP is still `"Unknown"`. -/
def onRequestCompleted (tabId : Nat) (url : String) (ip : Option String)
    (isMainFrame : Bool) (s : SysState) : SysState :=
  if isMainFrame then
    match ip with
    | some ipv =>
      if ipv = "" then s
      else
        match s.tabPaths tabId with
        | some tabPath =>
          let upgraded : TabRedirectPath :=
            { tabPath with path := updateFirstIp url ipv tabPath.path }
          { s with tabPaths := upd s.tabPaths tabId (some upgraded) }
        | none => s
    | none => s
  else s

/-- `chrome.webNavigation.onCompleted` listener: clear the pending
navigation, synthesize a final hop when the chain is still empty; badge,
broadcast and auto-save have no effect on this state. -/
def onNavigationCompleted (tabId : Nat) (url : String) (frameId : Nat)
    (now : Int) (s : SysState) : SysState :=
  if frameId ≠ 0 then s
  else
    let s1 := { s with pendingNavigations := upd s.pendingNavigations tabId none }
    let chainMissing :=
      match s1.tabPaths tabId with
      | none => true
      | some tabPath => decide (tabPath.path.length = 0)
    if chainMissing then
      addRedirectItem now tabId
        { url := some url
          status_code := some 200
          status_line := some "HTTP/1.1 200 OK"
          ip := none
          type := some HopType.navigation
          redirect_type := none
          redirect_url := none
          headers := some [] } s1
    else s1

/-- `chrome.tabs.onRemoved` listeners (both occurrences): delete the
tab's chain.  Note the source deletes only `tabPaths`; `requestTimings`
is untouched here. -/
def onTabRemoved (tabId : Nat) (s : SysState) : SysState :=
  { s with tabPaths := upd s.tabPaths tabId none }

/-- The 60-second staleness sweep over `requestTimings`. -/
def timingSweep (now : Int) (s : SysState) : SysState :=
  { s with requestTimings := fun k =>
      match s.requestTimings k with
      | some startTime => if now - startTime > 60000 then none else some startTime
      | none => none }

/-- One step of the background script: dispatch an event to its handler.
`tabActivated` and `msgGetTabPath` only read state (badge / response). -/
def step (e : Event) (s : SysState) : SysState :=
  match e with
  | .beforeRequest tabId url isMainFrame now => onBeforeRequest tabId url isMainFrame now s
  | .responseStarted tabId url ip isMainFrame _ =>
      onResponseStarted tabId url ip isMainFrame s
  | .beforeNavigate tabId url frameId now => onBeforeNavigate tabId url frameId now s
  | .headersReceived tabId url statusCode statusLine responseHeaders ip isMainFrame now =>
      onHeadersReceived tabId url statusCode statusLine responseHeaders ip isMainFrame now s
  | .requestCompleted tabId url ip isMainFrame _ =>
      onRequestCompleted tabId url ip isMainFrame s
  | .navigationCompleted tabId url frameId now =>
      onNavigationCompleted tabId url frameId now s
  | .tabActivated _ => s
  | .tabRemoved tabId => onTabRemoved tabId s
  | .msgGetTabPath _ => s
  | .msgClearTabPath tabId now => clearTabPath now tabId s
  | .timingSweep now => timingSweep now s

/-- The `getTabPath` message handler's response: `tabPath?.path || []`. -/
def getTabPathQuery (s : SysState) (tabId : Nat) : List RedirectItem :=
  match s.tabPaths tabId with
  | some tabPath => tabPath.path
  | none => []

/-- The hop list of a tab's current chain (empty when no chain exists). -/
def hopsOf (s : SysState) (tabId : Nat) : List RedirectItem :=
  getTabPathQuery s tabId

/-- The appended hop of the most recent `push` (last element of the chain). -/
def lastHop (s : SysState) (tabId : Nat) : Option RedirectItem :=
  (hopsOf s tabId).getLast?

/-- Number of `true` fields among the four status classes. -/
def trueCount (o : StatusObject) : Nat :=
  (if o.isSuccess then 1 else 0) + (if o.isRedirect then 1 else 0) +
    (if o.isClientError then 1 else 0) + (if o.isServerError then 1 else 0)

/-- Some header's name equals `non-authoritative-reason` case-insensitively
and its value is exactly `HSTS`. -/
def hstsHeaderPresent (headers : List RedirectHeader) : Prop :=
  ∃ h ∈ headers, jsToLower h.name = "non-authoritative-reason" ∧ h.value = "HSTS"

/-- A plain navigation hop used to build concrete states. -/
def sampleHop (u : String) : RedirectItem :=
  { id := 0, url := u, status_code := 200, status_line := "", ip := "Unknown",
    type := HopType.navigation, redirect_type := none, redirect_url := none,
    headers := [], timestamp := 0, timing := none,
    statusObject := getStatusObject 200 }

/-- A 302 server-redirect hop used to build concrete chains. -/
def sample302Hop (u : String) : RedirectItem :=
  { id := 0, url := u, status_code := 302, status_line := "HTTP/1.1 302 Found",
    ip := "Unknown", type := HopType.server_redirect,
    redirect_type := some RedirectType.temporary, redirect_url := none,
    headers := [], timestamp := 0, timing := none,
    statusObject := getStatusObject 302 }

/-- A state where tab 1 has a one-hop chain whose first hop URL carries a
query string, as in the spec's new-navigation example. -/
def chainStateA : SysState :=
  { initState with
    tabPaths := upd initState.tabPaths 1
      (some { tabId := 1, path := [sampleHop "https://a.com/?x=1"], startTime := 0 }) }

/-- A hop whose IP is already resolved, for states exercising IP backfill. -/
def knownIpHop : RedirectItem :=
  { sampleHop "https://x.example/" with ip := "1.2.3.4" }

/-- A state where tab 1 has a one-hop chain whose hop has a known IP. -/
def ipKnownState : SysState :=
  { initState with
    tabPaths := upd initState.tabPaths 1
      (some { tabId := 1, path := [knownIpHop], startTime := 0 }) }

/-- A state where tab 0 has a chain and a pending timing entry. -/
def timedState : SysState :=
  { initState with
    tabPaths := upd initState.tabPaths 0
      (some { tabId := 0, path := [sampleHop "https://x.example/"], startTime := 0 })
    requestTimings := upd initState.requestTimings (0, "https://x.example/") (some 5) }

/-- The partial item `onHeadersReceived` would pass for a plain 200 page. -/
def sampleItem (u : String) : PartialItem :=
  { url := some u, status_code := some 200, status_line := some "HTTP/1.1 200 OK",
    ip := none, type := some HopType.navigation, redirect_type := none,
    redirect_url := none, headers := some [] }

/-- A state whose timing table holds a recorded start time of 0 — the JS
epoch value that `||` treats as falsy. -/
def zeroStartState : SysState :=
  { initState with
    requestTimings := upd initState.requestTimings (0, "https://z.example/") (some 0) }

/-- The projection of a hop to the fields `calculateChainScore` reads. -/
structure HopKey where
  type : HopType
  status_code : Int
  url : String
  deriving DecidableEq

/-- Project a hop to its score-relevant fields. -/
def hopKey (p : RedirectItem) : HopKey :=
  { type := p.type, status_code := p.status_code, url := p.url }

/-- `isRedirectHop` on projected hops. -/
def isRedirectKey (k : HopKey) : Bool :=
  decide (k.type = HopType.server_redirect ∨ k.type = HopType.client_redirect)

/-- `calculateChainScore` transcribed onto projected hops, used to show the
score reads only `type`, `status_code` and `url`. -/
def calculateChainScoreKeys (ks : List HopKey) : ChainScore :=
  let redirectCount : Nat := (ks.filter isRedirectKey).length
  let score0 : Int := 100
  let score1 : Int :=
    if redirectCount > 0 then score0 - (redirectCount : Int) * 10 else score0
  let issues1 : List ChainIssue := []
  let recs1 : List String := []
  let issues2 : List ChainIssue :=
    if redirectCount > 3 then
      issues1 ++ [⟨IssueType.error,
        "Too many redirects (" ++ toString redirectCount ++
          "). Each redirect loses ~15% link equity.", Impact.high⟩]
    else if redirectCount > 1 then
      issues1 ++ [⟨IssueType.warning,
        toString redirectCount ++ " redirects in chain. Consider reducing.",
        Impact.medium⟩]
    else issues1
  let recs2 : List String :=
    if redirectCount > 3 then recs1 ++ ["Reduce redirect chain to maximum 2 hops"]
    else recs1
  let score2 : Int := if redirectCount > 3 then score1 - 15 else score1
  let tempRedirects : Nat :=
    (ks.filter (fun k => decide (k.status_code = 302 ∨ k.status_code = 307))).length
  let issues3 : List ChainIssue :=
    if tempRedirects > 0 then
      issues2 ++ [⟨IssueType.warning,
        toString tempRedirects ++
          " temporary redirect(s) found. Consider using 301 for permanent moves.",
        Impact.medium⟩]
    else issues2
  let recs3 : List String :=
    if tempRedirects > 0 then
      recs2 ++ ["Change 302 redirects to 301 if the move is permanent"]
    else recs2
  let score3 : Int := if tempRedirects > 0 then score2 - (tempRedirects : Int) * 5 else score2
  let clientRedirects : Nat :=
    (ks.filter (fun k => decide (k.type = HopType.client_redirect))).length
  let issues4 : List ChainIssue :=
    if clientRedirects > 0 then
      issues3 ++ [⟨IssueType.error,
        toString clientRedirects ++
          " client-side redirect(s) detected. These are bad for SEO.",
        Impact.high⟩]
    else issues3
  let recs4 : List String :=
    if clientRedirects > 0 then
      recs3 ++ ["Replace JavaScript/meta redirects with server-side 301 redirects"]
    else recs3
  let score4 : Int :=
    if clientRedirects > 0 then score3 - (clientRedirects : Int) * 15 else score3
  let errorHops : Nat := (ks.filter (fun k => decide (k.status_code ≥ 400))).length
  let issues5 : List ChainIssue :=
    if errorHops > 0 then
      issues4 ++ [⟨IssueType.error,
        toString errorHops ++ " error response(s) in chain.", Impact.high⟩]
    else issues4
  let score5 : Int := if errorHops > 0 then score4 - (errorHops : Int) * 20 else score4
  let hasHttp : Bool := ks.any (fun k => jsStartsWith k.url "http://")
  let issues6 : List ChainIssue :=
    if hasHttp then
      issues5 ++ [⟨IssueType.warning, "Non-HTTPS URL detected in chain.", Impact.medium⟩]
    else issues5
  let recs6 : List String := if hasHttp then recs4 ++ ["Ensure all URLs use HTTPS"] else recs4
  let score6 : Int := if hasHttp then score5 - 10 else score5
  let issues7 : List ChainIssue :=
    if redirectCount = 0 ∧ issues6.length = 0 then
      issues6 ++ [⟨IssueType.info, "Perfect! Direct access with no redirects.", Impact.low⟩]
    else if redirectCount = 1 then
      match ks.find? isRedirectKey with
      | some redirectItem =>
        if redirectItem.status_code = 301 ∨ redirectItem.status_code = 308 then
          issues6 ++ [⟨IssueType.info, "Good! Single permanent redirect.", Impact.low⟩]
        else issues6
      | none => issues6
    else issues6
  let clamped : Int := max 0 (min 100 score6)
  let grade : Grade :=
    if clamped ≥ 90 then Grade.A
    else if clamped ≥ 75 then Grade.B
    else if clamped ≥ 60 then Grade.C
    else if clamped ≥ 40 then Grade.D
    else Grade.F
  { score := clamped, grade := grade, issues := issues7, recommendations := recs6 }

/-- C3 counterexample: scoring the empty hop list does NOT return an empty
issue list — the "Perfect! Direct access" info issue fires (its guard
`redirectCount === 0 && issues.length === 0` holds for `[]`). -/
theorem score_empty_zero_issues_counterexample :
    ¬ ((calculateChainScore []).score = 100 ∧
       (calculateChainScore []).grade = Grade.A ∧
       (calculateChainScore []).issues = []) := by
  decide

/-- C3 (amended): scoring the empty hop list returns score 100, grade A,
exactly one info issue ("Perfect! Direct access with no redirects.") and
no recommendations. -/
theorem score_empty_eq :
    calculateChainScore [] =
      { score := 100, grade := Grade.A,
        issues := [⟨IssueType.info, "Perfect! Direct access with no redirects.",
          Impact.low⟩],
        recommendations := [] } := by
  decide

/-- C4: `getStatusObject` classifies every integer status code: the four
class flags hold on exactly the claimed ranges, exactly one flag is set for
codes in [200, 599], all are clear below 200, and at or above 600 only
`isServerError` is set (it is open-ended above 500). -/
theorem getStatusObject_classification (c : Int) :
    ((getStatusObject c).isSuccess = true ↔ 200 ≤ c ∧ c < 300) ∧
    ((getStatusObject c).isRedirect = true ↔ 300 ≤ c ∧ c < 400) ∧
    ((getStatusObject c).isClientError = true ↔ 400 ≤ c ∧ c < 500) ∧
    ((getStatusObject c).isServerError = true ↔ 500 ≤ c) ∧
    (200 ≤ c ∧ c ≤ 599 → trueCount (getStatusObject c) = 1) ∧
    (c < 200 → trueCount (getStatusObject c) = 0) ∧
    (600 ≤ c → (getStatusObject c).isServerError = true ∧
      (getStatusObject c).isSuccess = false ∧
      (getStatusObject c).isRedirect = false ∧
      (getStatusObject c).isClientError = false) := by
  refine ⟨?_, ?_, ?_, ?_, ?_, ?_, ?_⟩ <;>
    simp [getStatusObject, trueCount] <;>
    first
    | omega
    | (intros; split_ifs <;> omega)

/-- C4 witness at status code 250. -/
theorem getStatusObject_classification_witness :
    (200 ≤ (250 : Int) ∧ (250 : Int) ≤ 599) ∧
      trueCount (getStatusObject 250) = 1 :=
  ⟨by decide, (getStatusObject_classification 250).2.2.2.2.1 ⟨by decide, by decide⟩⟩

/-- C5: `getRedirectType` returns `hsts` iff the code is 307 and a header
named `non-authoritative-reason` (case-insensitively) has value exactly
`HSTS`; otherwise `permanent` iff the code is 301 or 308; otherwise
`temporary`. -/
theorem getRedirectType_spec (code : Int) (headers : List RedirectHeader) :
    (getRedirectType code headers = RedirectType.hsts ↔
      code = 307 ∧ hstsHeaderPresent headers) ∧
    (¬ (code = 307 ∧ hstsHeaderPresent headers) →
      (getRedirectType code headers = RedirectType.permanent ↔
        code = 301 ∨ code = 308)) ∧
    (¬ (code = 307 ∧ hstsHeaderPresent headers) →
      ¬ (code = 301 ∨ code = 308) →
      getRedirectType code headers = RedirectType.temporary) := by
  have hfind : (headers.find? (fun h =>
      decide (jsToLower h.name = "non-authoritative-reason" ∧ h.value = "HSTS"))).isSome
      ↔ hstsHeaderPresent headers := by
    rw [List.find?_isSome]
    simp [hstsHeaderPresent]
  constructor
  · simp only [getRedirectType]
    split_ifs <;> simp_all
  constructor
  · intro hn
    simp only [getRedirectType]
    split_ifs <;> simp_all
  · intro hn hp
    simp only [getRedirectType]
    split_ifs <;> simp_all

/-- C5 witness: 301 with no headers is a permanent redirect. -/
theorem getRedirectType_spec_witness :
    ¬ ((301 : Int) = 307 ∧ hstsHeaderPresent []) ∧
      getRedirectType 301 [] = RedirectType.permanent := by
  have hno : ¬ ((301 : Int) = 307 ∧ hstsHeaderPresent []) := by
    rintro ⟨h, -⟩
    omega
  exact ⟨hno, ((getRedirectType_spec 301 []).2.1 hno).mpr (Or.inl rfl)⟩

/-- C2: a four-hop chain whose first three hops are 302 server redirects and
whose last hop is a 200 navigation, with no `http://` URL, scores
100 − 3·10 − 3·5 = 55 with grade D; the issues are exactly one warning for
more than one redirect (no "too many redirects" error, since 3 is not > 3)
and one warning for temporary redirects. -/
theorem score_three_temp_redirects (h1 h2 h3 h4 : RedirectItem)
    (ht1 : h1.type = HopType.server_redirect) (hc1 : h1.status_code = 302)
    (ht2 : h2.type = HopType.server_redirect) (hc2 : h2.status_code = 302)
    (ht3 : h3.type = HopType.server_redirect) (hc3 : h3.status_code = 302)
    (ht4 : h4.type = HopType.navigation) (hc4 : h4.status_code = 200)
    (hu1 : jsStartsWith h1.url "http://" = false)
    (hu2 : jsStartsWith h2.url "http://" = false)
    (hu3 : jsStartsWith h3.url "http://" = false)
    (hu4 : jsStartsWith h4.url "http://" = false) :
    calculateChainScore [h1, h2, h3, h4] =
      { score := 55, grade := Grade.D,
        issues :=
          [⟨IssueType.warning, "3 redirects in chain. Consider reducing.",
            Impact.medium⟩,
           ⟨IssueType.warning,
             "3 temporary redirect(s) found. Consider using 301 for permanent moves.",
             Impact.medium⟩],
        recommendations :=
          ["Change 302 redirects to 301 if the move is permanent"] } := by
  simp [calculateChainScore, isRedirectHop, List.filter, List.any,
    ht1, hc1, ht2, hc2, ht3, hc3, ht4, hc4, hu1, hu2, hu3, hu4]
  exact ⟨by decide, by decide⟩

/-- C1: a top-level navigation-about-to-occur event is classified as new —
and then the old chain is discarded for a fresh empty chain — exactly when
the tab has no chain, or the chain has zero hops, or the URL does not start
with the first hop's URL truncated before any `?`; with first hop URL
`https://a.com/?x=1`, navigating to `https://a.com/?y=2` continues the
chain and navigating to `https://b.com/` starts a new one. -/
theorem newNavigation_classification (s : SysState) (T : Nat) (u : String)
    (now : Int) :
    (isNewNavigation s T u = true ↔
      s.tabPaths T = none ∨
      (∃ tp, s.tabPaths T = some tp ∧ tp.path = []) ∨
      (∃ tp first rest, s.tabPaths T = some tp ∧ tp.path = first :: rest ∧
        jsStartsWith u (splitBeforeQuery first.url) = false)) ∧
    (isNewNavigation s T u = true →
      (step (Event.beforeNavigate T u 0 now) s).tabPaths T =
        some { tabId := T, path := [], startTime := now }) ∧
    (isNewNavigation s T u = false →
      step (Event.beforeNavigate T u 0 now) s = s) ∧
    isNewNavigation chainStateA 1 "https://a.com/?y=2" = false ∧
    isNewNavigation chainStateA 1 "https://b.com/" = true := by
  refine ⟨?_, ?_, ?_, by decide, by decide⟩
  · unfold isNewNavigation
    cases hT : s.tabPaths T with
    | none => simp
    | some tp =>
      cases hp : tp.path with
      | nil => simp [hp]
      | cons first rest => simp [hp]
  · intro hnew
    simp [step, onBeforeNavigate, hnew, clearTabPath, upd]
  · intro hold
    simp [step, onBeforeNavigate, hold]

/-- C1 witness: navigating tab 1 of `chainStateA` to `https://b.com/` is a
new navigation and replaces the chain with a fresh empty one. -/
theorem newNavigation_classification_witness :
    isNewNavigation chainStateA 1 "https://b.com/" = true ∧
    (step (Event.beforeNavigate 1 "https://b.com/" 0 7) chainStateA).tabPaths 1 =
      some { tabId := 1, path := [], startTime := 7 } :=
  ⟨by decide,
   (newNavigation_classification chainStateA 1 "https://b.com/" 7).2.1 (by decide)⟩

/-- C2 witness at a concrete 302→302→302→200 chain. -/
theorem score_three_temp_redirects_witness :
    calculateChainScore
      [sample302Hop "https://a.example/", sample302Hop "https://b.example/",
       sample302Hop "https://c.example/", sampleHop "https://d.example/"] =
      { score := 55, grade := Grade.D,
        issues :=
          [⟨IssueType.warning, "3 redirects in chain. Consider reducing.",
            Impact.medium⟩,
           ⟨IssueType.warning,
             "3 temporary redirect(s) found. Consider using 301 for permanent moves.",
             Impact.medium⟩],
        recommendations :=
          ["Change 302 redirects to 301 if the move is permanent"] } :=
  score_three_temp_redirects _ _ _ _ rfl rfl rfl rfl rfl rfl rfl rfl
    (by decide) (by decide) (by decide) (by decide)

/-- A hop whose IP is already known keeps its position and value under the
in-place IP upgrade. -/
theorem updateFirstIp_getElem?_of_known (u v : String) :
    ∀ (l : List RedirectItem) (i : Nat) (h : RedirectItem),
      l[i]? = some h → h.ip ≠ "Unknown" → (updateFirstIp u v l)[i]? = some h := by
  intro l
  induction l with
  | nil =>
    intro i h hg _
    simp at hg
  | cons a t ih =>
    intro i h hg hip
    by_cases hm : a.url = u ∧ a.ip = "Unknown"
    · cases i with
      | zero =>
        simp at hg
        subst hg
        exact absurd hm.2 hip
      | succ j =>
        simp only [updateFirstIp, if_pos hm]
        simpa using hg
    · cases i with
      | zero =>
        simp only [updateFirstIp, if_neg hm]
        simpa using hg
      | succ j =>
        simp only [updateFirstIp, if_neg hm]
        simp only [List.getElem?_cons_succ] at hg ⊢
        exact ih j h hg hip

/-- Every event either leaves a tab's hop list unchanged, empties it,
appends one hop, or applies the in-place IP upgrade. -/
theorem hopsOf_step_cases (e : Event) (s : SysState) (T : Nat) :
    hopsOf (step e s) T = hopsOf s T ∨
    hopsOf (step e s) T = [] ∨
    (∃ x, hopsOf (step e s) T = hopsOf s T ++ [x]) ∨
    (∃ u v, hopsOf (step e s) T = updateFirstIp u v (hopsOf s T)) := by
  have hadd : ∀ (now : Int) (tabId : Nat) (item : PartialItem) (s' : SysState),
      s'.tabPaths = s.tabPaths →
      hopsOf (addRedirectItem now tabId item s') T = hopsOf s T ∨
      (∃ x, hopsOf (addRedirectItem now tabId item s') T = hopsOf s T ++ [x]) := by
    intro now tabId item s' hs
    by_cases hT : T = tabId
    · subst hT
      right
      cases htp : s.tabPaths T with
      | none =>
        simp only [addRedirectItem, hopsOf, getTabPathQuery, upd, hs, htp, if_pos rfl]
        exact ⟨_, rfl⟩
      | some tp =>
        simp only [addRedirectItem, hopsOf, getTabPathQuery, upd, hs, htp, if_pos rfl]
        exact ⟨_, rfl⟩
    · left
      simp [addRedirectItem, hopsOf, getTabPathQuery, upd, hT, hs]
  cases e with
  | beforeRequest tabId url isMainFrame now =>
    left
    cases isMainFrame <;> rfl
  | responseStarted tabId url ip isMainFrame now =>
    cases isMainFrame
    · left; rfl
    · cases ip with
      | none => left; rfl
      | some ipv =>
        by_cases hv : ipv = ""
        · left; simp [step, onResponseStarted, hv]
        · simp only [step, onResponseStarted, if_pos rfl, if_neg hv]
          cases htp : s.tabPaths tabId with
          | none =>
            left
            simp only [htp]
            simp [hopsOf, getTabPathQuery]
          | some tabPath =>
            simp only [htp]
            by_cases hT : T = tabId
            · subst hT
              right; right; right
              refine ⟨url, ipv, ?_⟩
              simp [hopsOf, getTabPathQuery, upd, htp]
            · left
              simp [hopsOf, getTabPathQuery, upd, hT]
  | beforeNavigate tabId url frameId now =>
    by_cases hf : frameId ≠ 0
    · left; simp [step, onBeforeNavigate, hf]
    · simp only [step, onBeforeNavigate, if_neg hf]
      by_cases hnew : isNewNavigation s tabId url
      · simp only [if_pos hnew]
        by_cases hT : T = tabId
        · subst hT
          right; left
          simp [clearTabPath, hopsOf, getTabPathQuery, upd]
        · left
          simp [clearTabPath, hopsOf, getTabPathQuery, upd, hT]
      · left; simp [hnew]
  | headersReceived tabId url statusCode statusLine responseHeaders ip isMainFrame now =>
    cases isMainFrame
    · left; rfl
    · simp only [step, onHeadersReceived, if_pos rfl]
      have := hadd now tabId
        { url := some url
          status_code := some statusCode
          status_line := some statusLine
          ip := some (jsOrStr ip (jsOrStr (s.requestIPs (tabId, url)) "Unknown"))
          type := some (if decide (300 ≤ statusCode ∧ statusCode < 400) then
              HopType.server_redirect else HopType.navigation)
          redirect_type :=
            if decide (300 ≤ statusCode ∧ statusCode < 400) then
              some (getRedirectType statusCode responseHeaders) else none
          redirect_url :=
            if decide (300 ≤ statusCode ∧ statusCode < 400) then
              getLocationHeader responseHeaders else none
          headers := some responseHeaders } s rfl
      rcases this with h | ⟨x, h⟩
      · left
        simpa [hopsOf, getTabPathQuery] using h
      · right; right; left
        exact ⟨x, by simpa [hopsOf, getTabPathQuery] using h⟩
  | requestCompleted tabId url ip isMainFrame now =>
    cases isMainFrame
    · left; rfl
    · cases ip with
      | none => left; rfl
      | some ipv =>
        by_cases hv : ipv = ""
        · left; simp [step, onRequestCompleted, hv]
        · simp only [step, onRequestCompleted, if_pos rfl, if_neg hv]
          cases htp : s.tabPaths tabId with
          | none =>
            left
            simp only [htp]
            simp [hopsOf, getTabPathQuery]
          | some tabPath =>
            simp only [htp]
            by_cases hT : T = tabId
            · subst hT
              right; right; right
              refine ⟨url, ipv, ?_⟩
              simp [hopsOf, getTabPathQuery, upd, htp]
            · left
              simp [hopsOf, getTabPathQuery, upd, hT]
  | navigationCompleted tabId url frameId now =>
    by_cases hf : frameId ≠ 0
    · left; simp [step, onNavigationCompleted, hf]
    · simp only [step, onNavigationCompleted, if_neg hf]
      set s1 : SysState :=
        { s with pendingNavigations := upd s.pendingNavigations tabId none } with hs1
      by_cases hmiss : (match s1.tabPaths tabId with
          | none => true
          | some tabPath => decide (tabPath.path.length = 0)) = true
      · simp only [hmiss, if_pos rfl]
        have := hadd now tabId
          { url := some url
            status_code := some 200
            status_line := some "HTTP/1.1 200 OK"
            ip := none
            type := some HopType.navigation
            redirect_type := none
            redirect_url := none
            headers := some [] } s1 rfl
        rcases this with h | ⟨x, h⟩
        · left; exact h
        · right; right; left; exact ⟨x, h⟩
      · simp only [hmiss]
        left; rfl
  | tabActivated tabId => left; rfl
  | tabRemoved tabId =>
    by_cases hT : T = tabId
    · subst hT
      right; left
      simp [step, onTabRemoved, hopsOf, getTabPathQuery, upd]
    · left
      simp [step, onTabRemoved, hopsOf, getTabPathQuery, upd, hT]
  | msgGetTabPath tabId => left; rfl
  | msgClearTabPath tabId now =>
    by_cases hT : T = tabId
    · subst hT
      right; left
      simp [step, clearTabPath, hopsOf, getTabPathQuery, upd]
    · left
      simp [step, clearTabPath, hopsOf, getTabPathQuery, upd, hT]
  | timingSweep now => left; rfl

/-- C6: no event changes a hop whose IP is already known — if position `i`
of a tab's chain holds a hop with a non-"Unknown" IP and still holds a hop
after any event, that hop is unchanged (IP events upgrade only hops whose
IP is still "Unknown"; other events append, discard wholesale, or leave the
chain alone). -/
theorem knownIp_never_overwritten (e : Event) (s : SysState) (T i : Nat)
    (h h' : RedirectItem)
    (hget : (hopsOf s T)[i]? = some h) (hip : h.ip ≠ "Unknown")
    (hget' : (hopsOf (step e s) T)[i]? = some h') : h' = h := by
  rcases hopsOf_step_cases e s T with hc | hc | ⟨x, hc⟩ | ⟨u, v, hc⟩
  · rw [hc, hget] at hget'
    exact (Option.some.inj hget').symm
  · rw [hc] at hget'
    simp at hget'
  · have hi : i < (hopsOf s T).length := by
      by_contra hlt
      rw [List.getElem?_eq_none (by omega)] at hget
      exact Option.noConfusion hget
    rw [hc, List.getElem?_append_left hi, hget] at hget'
    exact (Option.some.inj hget').symm
  · rw [hc, updateFirstIp_getElem?_of_known u v _ i h hget hip] at hget'
    exact (Option.some.inj hget').symm

/-- C6 witness: an IP-observed event for the same URL leaves a hop with a
known IP untouched. -/
theorem knownIp_never_overwritten_witness :
    (hopsOf ipKnownState 1)[0]? = some knownIpHop ∧
    knownIpHop.ip ≠ "Unknown" ∧
    (hopsOf (step (Event.responseStarted 1 "https://x.example/" (some "9.9.9.9")
        true 0) ipKnownState) 1)[0]? = some knownIpHop ∧
    knownIpHop = knownIpHop :=
  ⟨by decide, by decide, by decide,
   knownIp_never_overwritten
     (Event.responseStarted 1 "https://x.example/" (some "9.9.9.9") true 0)
     ipKnownState 1 0 knownIpHop knownIpHop (by decide) (by decide) (by decide)⟩

/-- If no hop matches the URL with IP "Unknown", the in-place upgrade is the
identity. -/
theorem updateFirstIp_no_match (u v : String) :
    ∀ l : List RedirectItem, (∀ x ∈ l, ¬ (x.url = u ∧ x.ip = "Unknown")) →
      updateFirstIp u v l = l := by
  intro l
  induction l with
  | nil => intro _; rfl
  | cons a t ih =>
    intro hno
    have ha := hno a (List.mem_cons_self a t)
    simp only [updateFirstIp, if_neg ha]
    rw [ih (fun x hx => hno x (List.mem_cons_of_mem a hx))]

/-- The in-place upgrade rewrites exactly the first matching hop, changing
only its `ip` field. -/
theorem updateFirstIp_first_match (u v : String) :
    ∀ (l1 : List RedirectItem) (h : RedirectItem) (l2 : List RedirectItem),
      (∀ x ∈ l1, ¬ (x.url = u ∧ x.ip = "Unknown")) → h.url = u → h.ip = "Unknown" →
      updateFirstIp u v (l1 ++ h :: l2) = l1 ++ { h with ip := v } :: l2 := by
  intro l1
  induction l1 with
  | nil =>
    intro h l2 _ hu hip
    simp only [List.nil_append, updateFirstIp]
    rw [if_pos (And.intro hu hip)]
  | cons a t ih =>
    intro h l2 hno hu hip
    have ha := hno a (List.mem_cons_self a t)
    simp only [List.cons_append, updateFirstIp, if_neg ha]
    exact congrArg (List.cons a)
      (ih h l2 (fun x hx => hno x (List.mem_cons_of_mem a hx)) hu hip)

/-- C10: an IP-observed (`onResponseStarted`) or request-completed
(`onCompleted`) event carrying IP `v` for (tab `T`, URL `u`) leaves every
other tab's chain unchanged and maps tab `T`'s hops through the in-place
upgrade, which mutates at most one hop: the first whose URL is `u` and
whose IP is "Unknown", and only its `ip` field; when no hop matches, the
chain is unchanged. -/
theorem ipEvent_frame_effect (s : SysState) (T : Nat) (u v : String)
    (now : Int) (hv : v ≠ "") :
    (∀ T', T' ≠ T →
      (step (Event.responseStarted T u (some v) true now) s).tabPaths T' =
        s.tabPaths T' ∧
      (step (Event.requestCompleted T u (some v) true now) s).tabPaths T' =
        s.tabPaths T') ∧
    (hopsOf (step (Event.responseStarted T u (some v) true now) s) T =
       updateFirstIp u v (hopsOf s T) ∧
     hopsOf (step (Event.requestCompleted T u (some v) true now) s) T =
       updateFirstIp u v (hopsOf s T)) ∧
    ((∀ x ∈ hopsOf s T, ¬ (x.url = u ∧ x.ip = "Unknown")) →
       updateFirstIp u v (hopsOf s T) = hopsOf s T) ∧
    (∀ l1 h l2, hopsOf s T = l1 ++ h :: l2 →
       (∀ x ∈ l1, ¬ (x.url = u ∧ x.ip = "Unknown")) → h.url = u →
       h.ip = "Unknown" →
       updateFirstIp u v (hopsOf s T) = l1 ++ { h with ip := v } :: l2) := by
  refine ⟨?_, ⟨?_, ?_⟩, fun hno => updateFirstIp_no_match u v _ hno,
    fun l1 h l2 heq hno hu hip => by
      rw [heq]
      exact updateFirstIp_first_match u v l1 h l2 hno hu hip⟩
  · intro T' hT'
    constructor
    · simp only [step, onResponseStarted, if_pos rfl, if_neg hv]
      cases htp : s.tabPaths T with
      | none => simp only [htp]; rfl
      | some tabPath => simp only [htp]; simp [upd, hT']
    · simp only [step, onRequestCompleted, if_pos rfl, if_neg hv]
      cases htp : s.tabPaths T with
      | none => simp only [htp]; rfl
      | some tabPath => simp only [htp]; simp [upd, hT']
  · simp only [step, onResponseStarted, if_pos rfl, if_neg hv]
    cases htp : s.tabPaths T with
    | none => simp only [htp]; simp [hopsOf, getTabPathQuery, htp, updateFirstIp]
    | some tabPath => simp only [htp]; simp [hopsOf, getTabPathQuery, upd, htp]
  · simp only [step, onRequestCompleted, if_pos rfl, if_neg hv]
    cases htp : s.tabPaths T with
    | none => simp only [htp]; simp [hopsOf, getTabPathQuery, htp, updateFirstIp]
    | some tabPath => simp only [htp]; simp [hopsOf, getTabPathQuery, upd, htp]

/-- C10 witness: an IP-observed event for tab 1 of `chainStateA` rewrites
that tab's hops through the in-place upgrade. -/
theorem ipEvent_frame_effect_witness :
    ("9.9.9.9" : String) ≠ "" ∧
    hopsOf (step (Event.responseStarted 1 "https://a.com/?x=1" (some "9.9.9.9")
        true 0) chainStateA) 1 =
      updateFirstIp "https://a.com/?x=1" "9.9.9.9" (hopsOf chainStateA 1) :=
  ⟨by decide,
   (ipEvent_frame_effect chainStateA 1 "https://a.com/?x=1" "9.9.9.9" 0
     (by decide)).2.1.1⟩

/-- C7 counterexample: a tab-closed event does NOT delete the tab's timing
entries — `tabs.onRemoved` only deletes from `tabPaths`, so the timing
entry recorded for tab 0 survives the removal of tab 0. -/
theorem tabRemoved_keeps_timings_counterexample :
    timedState.requestTimings (0, "https://x.example/") = some 5 ∧
    (step (Event.tabRemoved 0) timedState).requestTimings
      (0, "https://x.example/") = some 5 ∧
    ¬ ((step (Event.tabRemoved 0) timedState).requestTimings
      (0, "https://x.example/") = none) := by
  refine ⟨rfl, rfl, ?_⟩
  intro hnone
  simp [step, onTabRemoved, timedState, initState, upd] at hnone

/-- C7 (amended): a tab-closed event deletes the tab's chain — so a
subsequent get-chain query returns the empty list, identical to a
never-seen tab — but leaves the timing table entirely unchanged (timing
entries are only removed by consumption or the staleness sweep). -/
theorem tabRemoved_cleanup (s : SysState) (T : Nat) :
    (step (Event.tabRemoved T) s).tabPaths T = none ∧
    (step (Event.tabRemoved T) s).requestTimings = s.requestTimings ∧
    getTabPathQuery (step (Event.tabRemoved T) s) T = [] ∧
    (∀ T', s.tabPaths T' = none → getTabPathQuery s T' = []) ∧
    getTabPathQuery initState T = [] := by
  refine ⟨?_, rfl, ?_, ?_, rfl⟩
  · simp [step, onTabRemoved, upd]
  · simp [step, onTabRemoved, getTabPathQuery, upd]
  · intro T' hT'
    simp [getTabPathQuery, hT']

/-- C7 witness: a never-seen tab's query is empty. -/
theorem tabRemoved_cleanup_witness :
    initState.tabPaths 3 = none ∧ getTabPathQuery initState 3 = [] :=
  ⟨rfl, (tabRemoved_cleanup initState 3).2.2.2.1 3 rfl⟩

/-- C8 counterexample: a recorded start time of 0 is NOT consumed — JS
`requestTimings.get(key) || Date.now()` treats the stored 0 as falsy, so
the appended hop gets the current time 5, not the recorded 0. -/
theorem addRedirectItem_zero_start_counterexample :
    zeroStartState.requestTimings
      (partialItemKey 0 (sampleItem "https://z.example/")) = some 0 ∧
    (lastHop (addRedirectItem 5 0 (sampleItem "https://z.example/")
        zeroStartState) 0).map RedirectItem.timing =
      some (some { startTime := 5, endTime := 5, duration := 0 }) ∧
    (5 : Int) ≠ 0 := by
  refine ⟨rfl, ?_, by decide⟩
  rfl

/-- C8 (amended): a hop appended for (tab `T`, key of `item`) gets
`timing.startTime` equal to the recorded start when one exists and is
nonzero (JS `||` treats a stored 0 as absent), else the current time with
duration 0; `timing.endTime` is the current time and
`duration = endTime − startTime`; the timing entry is deleted on
consumption, so a second hop for the same key without a new request-start
falls back to the current time. -/
theorem addRedirectItem_timing (s : SysState) (now : Int) (T : Nat)
    (item : PartialItem) :
    (∀ t, s.requestTimings (partialItemKey T item) = some t → t ≠ 0 →
      ∃ hop, lastHop (addRedirectItem now T item s) T = some hop ∧
        hop.timing = some { startTime := t, endTime := now, duration := now - t }) ∧
    (s.requestTimings (partialItemKey T item) = none →
      ∃ hop, lastHop (addRedirectItem now T item s) T = some hop ∧
        hop.timing = some { startTime := now, endTime := now, duration := 0 }) ∧
    (∀ hop, lastHop (addRedirectItem now T item s) T = some hop →
      ∃ tm, hop.timing = some tm ∧ tm.endTime = now ∧
        tm.duration = tm.endTime - tm.startTime) ∧
    ((addRedirectItem now T item s).requestTimings (partialItemKey T item) = none) ∧
    (∀ now2 item2, partialItemKey T item2 = partialItemKey T item →
      ∃ hop, lastHop (addRedirectItem now2 T item2 (addRedirectItem now T item s)) T =
          some hop ∧
        hop.timing = some { startTime := now2, endTime := now2, duration := 0 }) := by
  have hmain : ∀ (s' : SysState) (now' : Int) (item' : PartialItem),
      ∃ hop, lastHop (addRedirectItem now' T item' s') T = some hop ∧
        hop.timing = some
          { startTime := jsOrInt (s'.requestTimings (partialItemKey T item')) now',
            endTime := now',
            duration := now' - jsOrInt (s'.requestTimings (partialItemKey T item')) now' } := by
    intro s' now' item'
    refine ⟨builtItem now' T item' s', ?_, rfl⟩
    simp only [lastHop, addRedirectItem, hopsOf, getTabPathQuery, upd, if_pos rfl]
    exact List.getLast?_concat _
  have hdel : (addRedirectItem now T item s).requestTimings
      (partialItemKey T item) = none := by
    simp [addRedirectItem, upd]
  refine ⟨?_, ?_, ?_, hdel, ?_⟩
  · intro t ht ht0
    obtain ⟨hop, hlast, htm⟩ := hmain s now item
    exact ⟨hop, hlast, by rw [htm]; simp [jsOrInt, ht, ht0]⟩
  · intro hnone
    obtain ⟨hop, hlast, htm⟩ := hmain s now item
    exact ⟨hop, hlast, by rw [htm]; simp [jsOrInt, hnone]⟩
  · intro hop hlast
    obtain ⟨hop', hlast', htm⟩ := hmain s now item
    rw [hlast'] at hlast
    cases hlast
    exact ⟨_, htm, rfl, rfl⟩
  · intro now2 item2 hkey
    obtain ⟨hop, hlast, htm⟩ := hmain (addRedirectItem now T item s) now2 item2
    rw [hkey, hdel] at htm
    exact ⟨hop, hlast, by rw [htm]; simp [jsOrInt]⟩

/-- C8 witness: a recorded start of 9 is consumed by a hop appended at 15. -/
theorem addRedirectItem_timing_witness :
    timedState.requestTimings
      (partialItemKey 0 (sampleItem "https://x.example/")) = some 5 ∧
    ((5 : Int) ≠ 0) ∧
    ∃ hop, lastHop (addRedirectItem 15 0 (sampleItem "https://x.example/")
        timedState) 0 = some hop ∧
      hop.timing = some { startTime := 5, endTime := 15, duration := 10 } :=
  ⟨rfl, by decide,
   (addRedirectItem_timing timedState 15 0 (sampleItem "https://x.example/")).1
     5 rfl (by decide)⟩

/-- `calculateChainScore` factors through the projection that keeps only
`type`, `status_code` and `url`. -/
theorem calculateChainScore_eq_keys (path : List RedirectItem) :
    calculateChainScore path = calculateChainScoreKeys (path.map hopKey) := by
  have hrc : ((path.map hopKey).filter isRedirectKey).length =
      (path.filter isRedirectHop).length := by
    rw [List.filter_map, List.length_map]
    rfl
  have htmp : ((path.map hopKey).filter
        (fun k => decide (k.status_code = 302 ∨ k.status_code = 307))).length =
      (path.filter (fun p => decide (p.status_code = 302 ∨ p.status_code = 307))).length := by
    rw [List.filter_map, List.length_map]
    rfl
  have hcli : ((path.map hopKey).filter
        (fun k => decide (k.type = HopType.client_redirect))).length =
      (path.filter (fun p => decide (p.type = HopType.client_redirect))).length := by
    rw [List.filter_map, List.length_map]
    rfl
  have herr : ((path.map hopKey).filter (fun k => decide (k.status_code ≥ 400))).length =
      (path.filter (fun p => decide (p.status_code ≥ 400))).length := by
    rw [List.filter_map, List.length_map]
    rfl
  have hany : ∀ l : List RedirectItem,
      (l.map hopKey).any (fun k => jsStartsWith k.url "http://") =
        l.any (fun p => jsStartsWith p.url "http://") := by
    intro l
    induction l with
    | nil => rfl
    | cons a t ih =>
      simp only [List.map_cons, List.any_cons, ih]
      rfl
  have hfind : (path.map hopKey).find? isRedirectKey =
      (path.find? isRedirectHop).map hopKey := by
    rw [List.find?_map]
    rfl
  simp only [calculateChainScore, calculateChainScoreKeys, hrc, htmp, hcli,
    herr, hany path, hfind]
  cases hf : path.find? isRedirectHop with
  | none => rfl
  | some r => rfl

/-- C9: the chain score depends only on each hop's `type`, `status_code`
and `url` — two hop lists of equal length agreeing pointwise on those three
fields score identically, whatever their headers, IPs, ids, timestamps or
timings. -/
theorem score_depends_only_on_type_status_url (p1 p2 : List RedirectItem)
    (hlen : p1.length = p2.length)
    (hpt : ∀ (i : Nat) (h1 h2 : RedirectItem), p1[i]? = some h1 → p2[i]? = some h2 →
      h1.type = h2.type ∧ h1.status_code = h2.status_code ∧ h1.url = h2.url) :
    calculateChainScore p1 = calculateChainScore p2 := by
  have hmap : p1.map hopKey = p2.map hopKey := by
    apply List.ext_getElem?
    intro i
    rw [List.getElem?_map, List.getElem?_map]
    cases hg1 : p1[i]? with
    | none =>
      have hg2 : p2[i]? = none := by
        rw [List.getElem?_eq_none_iff] at hg1 ⊢
        omega
      rw [hg2]
    | some h1 =>
      cases hg2 : p2[i]? with
      | none =>
        exfalso
        have h2n : p2.length ≤ i := List.getElem?_eq_none_iff.mp hg2
        have h1s : i < p1.length := by
          by_contra hlt
          rw [List.getElem?_eq_none (by omega)] at hg1
          exact Option.noConfusion hg1
        omega
      | some h2 =>
        obtain ⟨ht, hs, hu⟩ := hpt i h1 h2 hg1 hg2
        simp [hopKey, ht, hs, hu]
  rw [calculateChainScore_eq_keys, calculateChainScore_eq_keys, hmap]

/-- C9 witness: two one-hop chains differing only in the hop's IP score
identically. -/
theorem score_depends_only_witness :
    [sampleHop "https://x.example/"].length = [knownIpHop].length ∧
    calculateChainScore [sampleHop "https://x.example/"] =
      calculateChainScore [knownIpHop] :=
  ⟨rfl,
   score_depends_only_on_type_status_url [sampleHop "https://x.example/"] [knownIpHop] rfl (by
     intro i h1 h2 hg1 hg2
     match i with
     | 0 =>
       simp at hg1 hg2
       subst hg1
       subst hg2
       exact ⟨by decide, by decide, by decide⟩
     | n + 1 => simp at hg1)⟩

end RedirectWise
